import Mathlib

/-!
Shallow embedding of the smappy client library (src/smappy/smappy.py)
for checking its natural-language specification.

Modelling conventions:
* Wall-clock time (`dt.datetime.utcnow()`) is an integer number of seconds
  since the Unix epoch.
* A Python `datetime` value is represented by its wall-clock fields read
  naively as microseconds since the epoch (`naive_us`) together with its
  `tzinfo`, modelled as an optional UTC offset in seconds (`pytz.UTC`
  is `some 0`).  `datetime.timestamp()` on an aware value is the exact
  rational `(naive_us - offset * 10^6) / 10^6` seconds; the code's
  `int(t.timestamp() * 1e3)` is therefore truncation toward zero of
  `micros / 1000`, i.e. `Int.tdiv micros 1000` (floating-point rounding
  of the intermediate value is abstracted to exact arithmetic).
* A raised Python exception is an explicit `PyError` value; a method that
  raises leaves the object state as it was at the raise point, which the
  embedding makes explicit by returning the state alongside the error.
* HTTP traffic is external input: each modelled call takes the response
  the server would return, and `requests.Response.raise_for_status`
  raises exactly when the status code is at least 400.
-/

/-- Python exceptions raised by the code under study. -/
inductive PyError where
  | httpError (status : Nat)
  | typeError
  | zeroDivisionError
  | keyError (key : String)
  | notImplementedError (msg : String)
  deriving Repr, DecidableEq

/-- `requests.Response.raise_for_status` does not raise exactly on
status codes below 400. -/
def statusOk (status : Nat) : Bool := status < 400

/-- Body of a token-endpoint HTTP response together with its status code:
JSON fields `access_token`, `refresh_token`, `expires_in` (seconds). -/
structure TokenResponse where
  status_code : Nat
  access_token : String
  refresh_token : String
  expires_in : Int
  deriving Repr, DecidableEq

/-- Mutable state of a `Smappee` object: credentials and token state,
as set by `Smappee.__init__`, `authenticate` and `re_authenticate`.
`token_expiration_time` is a UTC wall-clock instant in epoch seconds. -/
structure Smappee where
  client_id : Option String
  client_secret : Option String
  access_token : Option String
  refresh_token : Option String
  token_expiration_time : Option Int
  deriving Repr, DecidableEq

namespace Smappee

/-- `Smappee.__init__(client_id, client_secret)`. -/
def init (client_id client_secret : Option String) : Smappee :=
  { client_id := client_id
    client_secret := client_secret
    access_token := none
    refresh_token := none
    token_expiration_time := none }

/-- `Smappee._set_token_expiration_time(expires_in)`: current UTC time
plus `expires_in` seconds. -/
def set_token_expiration_time (s : Smappee) (now expires_in : Int) : Smappee :=
  { s with token_expiration_time := some (now + expires_in) }

/-- `Smappee.authenticate(username, password)` given the token endpoint's
response `r` at wall-clock time `now`.  `r.raise_for_status()` runs before
any field assignment, so a non-success status leaves the state unchanged;
on success the three token fields are all replaced from the body. -/
def authenticate (s : Smappee) (now : Int) (r : TokenResponse) :
    Smappee × Option PyError :=
  if statusOk r.status_code then
    (((({ s with access_token := some r.access_token
                 refresh_token := some r.refresh_token }).set_token_expiration_time
        now r.expires_in)), none)
  else
    (s, some (.httpError r.status_code))

/-- `Smappee.re_authenticate()` given the token endpoint's response `r` at
wall-clock time `now`: same response handling as `authenticate`, with the
request built from the stored refresh token instead of credentials. -/
def re_authenticate (s : Smappee) (now : Int) (r : TokenResponse) :
    Smappee × Option PyError :=
  if statusOk r.status_code then
    (((({ s with access_token := some r.access_token
                 refresh_token := some r.refresh_token }).set_token_expiration_time
        now r.expires_in)), none)
  else
    (s, some (.httpError r.status_code))

end Smappee

/-- The `authenticated` decorator's guard, run before the wrapped call:
`if self.refresh_token is not None and self.token_expiration_time <= utcnow():
self.re_authenticate()`.  Python's `and` short-circuits, so when
`refresh_token` is `None` the expiry is never compared; comparing a `None`
expiry against a datetime would raise `TypeError`.  Returns the state after
the guard, the number of token-endpoint (refresh) calls made, and the
error if one was raised.  `tokenResp` is the response the token endpoint
would give if called. -/
def authenticated (s : Smappee) (now : Int) (tokenResp : TokenResponse) :
    Smappee × Nat × Option PyError :=
  match s.refresh_token with
  | none => (s, 0, none)
  | some _ =>
    match s.token_expiration_time with
    | none => (s, 0, some .typeError)
    | some expiry =>
      if expiry ≤ now then
        let (s2, e) := s.re_authenticate now tokenResp
        (s2, 1, e)
      else
        (s, 0, none)

/-- An HTTP response from a service-location endpoint: status code and
parsed JSON body. -/
structure ApiResponse (β : Type) where
  status_code : Nat
  body : β
  deriving Repr, DecidableEq

/-- One `@authenticated` API method (the common shape of
`get_service_locations`, `get_consumption`, `get_events`, ...): run the
guard, then perform the request with the current bearer token,
`raise_for_status`, and return the parsed body.  A guard failure
propagates before the request is made. -/
def apiGet {β : Type} (s : Smappee) (now : Int) (tokenResp : TokenResponse)
    (resp : ApiResponse β) : Smappee × Nat × Except PyError β :=
  match authenticated s now tokenResp with
  | (s2, n, some e) => (s2, n, .error e)
  | (s2, n, none) =>
    if statusOk resp.status_code then
      (s2, n, .ok resp.body)
    else
      (s2, n, .error (.httpError resp.status_code))

/-- External environment of one authenticated call: the wall-clock time it
happens at, the response the token endpoint would give if refreshed, and
the response of the API endpoint itself. -/
structure CallEnv (β : Type) where
  now : Int
  tokenResp : TokenResponse
  resp : ApiResponse β
  deriving Repr, DecidableEq

/-- Run a sequence of authenticated API calls, accumulating the total
number of token-endpoint (refresh) calls made by the guards. -/
def runCalls {β : Type} : Smappee → List (CallEnv β) → Smappee × Nat
  | s, [] => (s, 0)
  | s, c :: rest =>
    let (s2, n, _) := apiGet s c.now c.tokenResp c.resp
    let (s3, m) := runCalls s2 rest
    (s3, n + m)

/-- `SimpleSmappee.__init__(access_token)`: `Smappee.__init__(None, None)`
followed by `self.access_token = access_token`. -/
def SimpleSmappee.init (access_token : String) : Smappee :=
  { Smappee.init none none with access_token := some access_token }

/-- A Python `datetime` (or pandas `Timestamp`): `naive_us` is the
wall-clock fields read naively as microseconds since the Unix epoch;
`tzinfo` is the attached timezone as a fixed UTC offset in seconds
(`none` for a naive value, `some 0` for `pytz.UTC`). -/
structure Datetime where
  naive_us : Int
  tzinfo : Option Int
  deriving Repr, DecidableEq

/-- `datetime.timestamp()` of an aware value, in exact microseconds:
the naive reading shifted to UTC by the attached offset. -/
def Datetime.timestampMicros (d : Datetime) : Int :=
  d.naive_us - (d.tzinfo.getD 0) * 1000000

/-- The dynamically-typed argument of `Smappee._to_milliseconds`:
a `datetime`-like value, a `numbers.Number` (epoch milliseconds), or
any other object such as a string. -/
inductive TimeArg where
  | datetime (d : Datetime)
  | number (n : Int)
  | other (s : String)
  deriving Repr, DecidableEq

/-- `Smappee._to_milliseconds(time)`: a `datetime` gets `pytz.UTC`
attached if naive (no shift), then `int(time.timestamp() * 1e3)` —
truncation toward zero of the exact epoch microseconds over 1000; a
number is returned unchanged; anything else raises
`NotImplementedError`. -/
def Smappee.to_milliseconds (t : TimeArg) : Except PyError Int :=
  match t with
  | .datetime d =>
    let d2 := match d.tzinfo with
      | none => { d with tzinfo := some 0 }
      | some _ => d
    .ok (d2.timestampMicros.tdiv 1000)
  | .number n => .ok n
  | .other _ =>
    .error (.notImplementedError
      "Time format not supported. Use milliseconds since epoch, Datetime or Pandas Datetime")

/-- One element of a `consumptions`/`records` series in a consumption
response: the `timestamp` field (epoch milliseconds) and the remaining
fields. -/
structure SeriesRow (α : Type) where
  timestamp : Int
  fields : List (String × α)
  deriving Repr, DecidableEq

/-- A UTC-zoned instant as produced by
`pd.to_datetime(..., unit=ms, utc=True)`. -/
structure UtcStamp where
  epoch_ms : Int
  deriving Repr, DecidableEq

/-- `Smappee.get_consumption_dataframe` (localize=False path), applied to
the parsed JSON `data` of the underlying consumption call: selects
`data[consumptions]` when no `sensor_id` is given and `data[records]`
when one is, then builds the table indexed by the `timestamp` field
converted to UTC instants, leaving the other fields as columns
(`if not df.empty` makes the empty series an empty table). -/
def Smappee.get_consumption_dataframe {α : Type} (sensor_id : Option Int)
    (data : List (String × List (SeriesRow α))) :
    Except PyError (List (UtcStamp × List (String × α))) :=
  let key := match sensor_id with
    | none => "consumptions"
    | some _ => "records"
  match data.lookup key with
  | none => .error (.keyError key)
  | some rows => .ok (rows.map fun r => ({ epoch_ms := r.timestamp }, r.fields))

/-- One record of `LocalSmappee.load_instantaneous()`'s response:
`key` and the numeric reading of its `value` field (the `float(...)`
parse of the JSON string is abstracted to the exact value). -/
structure Reading where
  key : String
  value : ℚ
  deriving Repr, DecidableEq

/-- Python `s.endswith(post)`: the characters of `post` are a suffix of
the characters of `s`. -/
def strEndsWith (s post : String) : Bool :=
  post.toList.isSuffixOf s.toList

/-- `LocalSmappee.active_cosfi()`, applied to the instantaneous readings
`inst`: the mean of the values of the keys ending in `Cosfi`;
`sum(values) / len(values)` raises `ZeroDivisionError` when no key
matches. -/
def LocalSmappee.active_cosfi (inst : List Reading) : Except PyError ℚ :=
  let values := (inst.filter fun i => strEndsWith i.key "Cosfi").map Reading.value
  if values.length = 0 then
    .error .zeroDivisionError
  else
    .ok (values.sum / (values.length : ℚ))

/-- Python `p.strip(slash)` on a character list: remove all leading and
all trailing `/` characters. -/
def stripSlashes (l : List Char) : List Char :=
  ((l.dropWhile (· = '/')).reverse.dropWhile (· = '/')).reverse

/-- Python `p.endswith(slashslash)`: the last two characters are both
`/`. -/
def endsWithDoubleSlash (l : List Char) : Bool :=
  match l.reverse with
  | a :: b :: _ => a = '/' && b = '/'
  | _ => false

/-- The per-part normalization inside `urljoin`'s loop: a part ending in
`//` loses exactly its last character (`p[0:-1]`), any other part is
stripped of leading and trailing slashes. -/
def urljoinPart (l : List Char) : List Char :=
  if endsWithDoubleSlash l then l.dropLast else stripSlashes l

/-- `urljoin(*parts)` on character lists: normalize each part, then
`/.join(part_list)`. -/
def urljoinL (parts : List (List Char)) : List Char :=
  List.intercalate ['/'] (parts.map urljoinPart)

/-- `urljoin(*parts)`: the module-level helper, with `str(part)`
abstracted to string-valued parts. -/
def urljoin (parts : List String) : String :=
  String.mk (urljoinL (parts.map String.toList))

/-- `runCalls` on a session without a refresh token is pure pass-through:
the guard short-circuits on every call, so the state never changes and
the token endpoint is never called. -/
theorem runCalls_of_refresh_token_none {β : Type} (s : Smappee)
    (h : s.refresh_token = none) (calls : List (CallEnv β)) :
    runCalls s calls = (s, 0) := by
  induction calls with
  | nil => rfl
  | cons c rest ih =>
    by_cases hs : statusOk c.resp.status_code = true <;>
      simp [runCalls, apiGet, authenticated, h, hs, ih]

/-- C2: `_to_milliseconds` returns every numeric input unchanged, hence
re-applying it to its own integer output returns the same value; and a
timezone-naive datetime is given the same result as its UTC-labeled
equivalent (naive values are interpreted as UTC, not shifted). -/
theorem C2_to_milliseconds_numeric_identity_and_naive_utc :
    (∀ n : Int, Smappee.to_milliseconds (.number n) = .ok n) ∧
    (∀ n m : Int, Smappee.to_milliseconds (.number n) = .ok m →
      Smappee.to_milliseconds (.number m) = .ok m) ∧
    (∀ us : Int, Smappee.to_milliseconds (.datetime ⟨us, none⟩) =
      Smappee.to_milliseconds (.datetime ⟨us, some 0⟩)) := by
  refine ⟨fun n => rfl, fun n m h => ?_, fun us => rfl⟩
  simp only [Smappee.to_milliseconds, Except.ok.injEq] at h
  exact h ▸ rfl

/-- C2 witness: re-feeding the integer output of `_to_milliseconds` on
`42` returns it unchanged. -/
theorem C2_witness : Smappee.to_milliseconds (.number 42) = .ok 42 :=
  C2_to_milliseconds_numeric_identity_and_naive_utc.2.1 42 42
    (C2_to_milliseconds_numeric_identity_and_naive_utc.1 42)

/-- C3 counterexample: for the UTC datetime 500 microseconds before the
epoch (`epochSeconds * 1000 = -1/2`), the code returns `0`
(`int()` truncates toward zero) while the claimed
`floor(epochSeconds * 1000)` is `-1`. -/
theorem C3_counterexample :
    Smappee.to_milliseconds (.datetime ⟨-500, some 0⟩) = .ok 0 ∧
    (Datetime.timestampMicros ⟨-500, some 0⟩).fdiv 1000 = -1 ∧
    (0 : Int) ≠ -1 := by
  refine ⟨rfl, by decide, by decide⟩

/-- C3 amended: `_to_milliseconds` on a date/time input returns the
input's exact UTC epoch time in microseconds divided by 1000 with the
quotient truncated toward zero (Python `int()`), timezone-aware inputs
being converted to UTC first and naive ones attached to UTC; for every
input whose UTC epoch time is nonnegative this agrees with
`floor(epochSeconds * 1000)`, but for pre-epoch instants with
sub-millisecond remainders it rounds toward zero instead of flooring. -/
theorem C3_amended_truncation_toward_zero :
    (∀ us off : Int, Smappee.to_milliseconds (.datetime ⟨us, some off⟩) =
      .ok ((us - off * 1000000).tdiv 1000)) ∧
    (∀ us : Int, Smappee.to_milliseconds (.datetime ⟨us, none⟩) =
      .ok (us.tdiv 1000)) ∧
    (∀ d : Datetime, 0 ≤ d.timestampMicros →
      Smappee.to_milliseconds (.datetime d) = .ok (d.timestampMicros.fdiv 1000)) := by
  refine ⟨fun us off => rfl,
    fun us => by simp [Smappee.to_milliseconds, Datetime.timestampMicros],
    fun d hd => ?_⟩
  have h1000 : (0 : Int) ≤ 1000 := by norm_num
  have htf : d.timestampMicros.tdiv 1000 = d.timestampMicros.fdiv 1000 := by
    rw [Int.tdiv_eq_ediv hd h1000, Int.fdiv_eq_ediv _ h1000]
  rw [← htf]
  cases h : d.tzinfo with
  | none => simp [Smappee.to_milliseconds, h, Datetime.timestampMicros]
  | some off => simp [Smappee.to_milliseconds, h, Datetime.timestampMicros]

/-- C3 amended witness: a post-epoch instant evaluated concretely. -/
theorem C3_amended_witness :
    0 ≤ (Datetime.mk 1500 (some 0)).timestampMicros ∧
    Smappee.to_milliseconds (.datetime ⟨1500, some 0⟩) =
      .ok ((Datetime.mk 1500 (some 0)).timestampMicros.fdiv 1000) :=
  ⟨by decide, C3_amended_truncation_toward_zero.2.2 ⟨1500, some 0⟩ (by decide)⟩

/-- C4: `_to_milliseconds` on an input that is neither numeric nor a
date/time value (e.g. a string) raises the unsupported-time-format error
(`NotImplementedError` carrying the `Time format not supported` message)
and never returns a value. -/
theorem C4_unsupported_time_format :
    (∀ s : String, Smappee.to_milliseconds (.other s) =
      .error (.notImplementedError
        "Time format not supported. Use milliseconds since epoch, Datetime or Pandas Datetime")) ∧
    (∀ (s : String) (v : Int), Smappee.to_milliseconds (.other s) ≠ .ok v) :=
  ⟨fun s => rfl, fun s v h => by simp [Smappee.to_milliseconds] at h⟩

/-- C5: `authenticate` and `re_authenticate` are atomic on the token
state: a non-success token-endpoint status raises (`raise_for_status`)
before any assignment, leaving access token, refresh token and expiry
unchanged; a success replaces all three together from the response body
fields. -/
theorem C5_authenticate_atomic :
    ∀ (s : Smappee) (now : Int) (r : TokenResponse),
      (statusOk r.status_code = false →
        s.authenticate now r = (s, some (.httpError r.status_code)) ∧
        s.re_authenticate now r = (s, some (.httpError r.status_code))) ∧
      (statusOk r.status_code = true →
        s.authenticate now r =
          ({ s with access_token := some r.access_token
                    refresh_token := some r.refresh_token
                    token_expiration_time := some (now + r.expires_in) }, none) ∧
        s.re_authenticate now r =
          ({ s with access_token := some r.access_token
                    refresh_token := some r.refresh_token
                    token_expiration_time := some (now + r.expires_in) }, none)) := by
  intro s now r
  constructor
  · intro h
    constructor <;>
      simp [Smappee.authenticate, Smappee.re_authenticate, h]
  · intro h
    constructor <;>
      simp [Smappee.authenticate, Smappee.re_authenticate,
        Smappee.set_token_expiration_time, h]

/-- C5 witness: a 400 response leaves an empty session unchanged. -/
theorem C5_witness :
    (Smappee.init none none).authenticate 0 ⟨400, "a", "r", 60⟩ =
      (Smappee.init none none, some (.httpError 400)) :=
  ((C5_authenticate_atomic (Smappee.init none none) 0 ⟨400, "a", "r", 60⟩).1
    (by decide)).1

/-- C7: `active_cosfi` over readings with no key ending in `Cosfi`
raises `ZeroDivisionError` and returns no value at all. -/
theorem C7_active_cosfi_empty_mean_fails :
    ∀ inst : List Reading,
      (∀ i ∈ inst, strEndsWith i.key "Cosfi" = false) →
      LocalSmappee.active_cosfi inst = .error .zeroDivisionError ∧
      ∀ q : ℚ, LocalSmappee.active_cosfi inst ≠ .ok q := by
  intro inst h
  have hfil : inst.filter (fun i => strEndsWith i.key "Cosfi") = [] := by
    rw [List.filter_eq_nil_iff]
    intro a ha
    simp [h a ha]
  have : LocalSmappee.active_cosfi inst = .error .zeroDivisionError := by
    simp [LocalSmappee.active_cosfi, hfil]
  exact ⟨this, fun q hq => by rw [this] at hq; cases hq⟩

/-- C7 witness: readings containing only active-power keys. -/
theorem C7_witness :
    LocalSmappee.active_cosfi
      [⟨"L1ActivePower", 500⟩, ⟨"L2ActivePower", 300⟩] =
      .error .zeroDivisionError :=
  (C7_active_cosfi_empty_mean_fails
    [⟨"L1ActivePower", 500⟩, ⟨"L2ActivePower", 300⟩] (by decide)).1

/-- C10: the guard short-circuits on the refresh-token check — with
`refresh_token = None` it is a no-op (no `TypeError` from comparing a
`None` expiry, no refresh, no state change) and the guarded call
proceeds; both constructors leave `refresh_token` and the expiry
unset. -/
theorem C10_guard_short_circuits_on_refresh_token :
    (∀ (s : Smappee) (now : Int) (r : TokenResponse),
      s.refresh_token = none →
      authenticated s now r = (s, 0, none) ∧
      ∀ {β : Type} (resp : ApiResponse β),
        apiGet s now r resp =
          (s, 0, if statusOk resp.status_code then .ok resp.body
                 else .error (.httpError resp.status_code))) ∧
    (∀ cid cs : Option String, (Smappee.init cid cs).refresh_token = none ∧
      (Smappee.init cid cs).token_expiration_time = none) ∧
    (∀ tok : String, (SimpleSmappee.init tok).refresh_token = none ∧
      (SimpleSmappee.init tok).token_expiration_time = none) := by
  refine ⟨fun s now r h => ⟨?_, fun {β} resp => ?_⟩,
    fun cid cs => ⟨rfl, rfl⟩, fun tok => ⟨rfl, rfl⟩⟩
  · simp [authenticated, h]
  · simp only [apiGet, authenticated, h]
    by_cases hs : statusOk resp.status_code <;> simp [hs]

/-- C10 witness: a never-authenticated session with unset expiry passes
the guard untouched. -/
theorem C10_witness :
    authenticated (Smappee.init none none) 0 ⟨200, "a", "r", 60⟩ =
      (Smappee.init none none, 0, none) :=
  (C10_guard_short_circuits_on_refresh_token.1 (Smappee.init none none) 0
    ⟨200, "a", "r", 60⟩
    (C10_guard_short_circuits_on_refresh_token.2.1 none none).1).1

/-- The guard with a refresh token present and an unexpired stored
expiry is a no-op. -/
theorem authenticated_of_not_expired (s : Smappee) (rt : String)
    (e now : Int) (hrt : s.refresh_token = some rt)
    (he : s.token_expiration_time = some e) (hgt : now < e)
    (r : TokenResponse) :
    authenticated s now r = (s, 0, none) := by
  simp only [authenticated, hrt, he]
  rw [if_neg (by omega)]

/-- The guard with a refresh token present and an expired stored expiry
performs exactly one refresh; on a successful token response it replaces
the whole token state. -/
theorem authenticated_of_expired (s : Smappee) (rt : String)
    (e now : Int) (hrt : s.refresh_token = some rt)
    (he : s.token_expiration_time = some e) (hle : e ≤ now)
    (r : TokenResponse) (hok : statusOk r.status_code = true) :
    authenticated s now r =
      ({ s with access_token := some r.access_token
                refresh_token := some r.refresh_token
                token_expiration_time := some (now + r.expires_in) }, 1, none) := by
  simp only [authenticated, hrt, he]
  rw [if_pos hle]
  simp [Smappee.re_authenticate, Smappee.set_token_expiration_time, hok]

/-- C1: for a session whose token state was set by a successful token
response with `expires_in = N` received at time `t0`, the guard stores
`refresh_token` and expiry `t0 + N`; any call strictly before `t0 + N`
triggers no refresh and leaves the state untouched; a call triggers a
refresh (exactly one token-endpoint call) iff a refresh token is present
and the stored expiry is at or before the call time; and after the first
successful refresh, calls made before the new expiry trigger no further
refresh. -/
theorem C1_guard_refresh_exactly_at_expiry (s0 : Smappee) (t0 : Int)
    (r : TokenResponse) (hok : statusOk r.status_code = true) :
    let s := (s0.authenticate t0 r).1
    (s.refresh_token = some r.refresh_token ∧
     s.token_expiration_time = some (t0 + r.expires_in)) ∧
    (∀ (now : Int) (r2 : TokenResponse), now < t0 + r.expires_in →
       authenticated s now r2 = (s, 0, none)) ∧
    (∀ (now : Int) (r2 : TokenResponse),
       (authenticated s now r2).2.1 = 1 ↔
         (s.refresh_token.isSome = true ∧ t0 + r.expires_in ≤ now)) ∧
    (∀ (t1 : Int) (r2 : TokenResponse), t0 + r.expires_in ≤ t1 →
       statusOk r2.status_code = true →
       ∀ (t2 : Int) (r3 : TokenResponse), t2 < t1 + r2.expires_in →
         authenticated (authenticated s t1 r2).1 t2 r3 =
           ((authenticated s t1 r2).1, 0, none)) := by
  intro s
  have hs : s = { s0 with access_token := some r.access_token
                          refresh_token := some r.refresh_token
                          token_expiration_time := some (t0 + r.expires_in) } := by
    simp [s, Smappee.authenticate, Smappee.set_token_expiration_time, hok]
  have hrt : s.refresh_token = some r.refresh_token := by rw [hs]
  have he : s.token_expiration_time = some (t0 + r.expires_in) := by rw [hs]
  refine ⟨⟨hrt, he⟩, fun now r2 hlt => ?_, fun now r2 => ?_,
    fun t1 r2 ht1 hok2 t2 r3 ht2 => ?_⟩
  · exact authenticated_of_not_expired s r.refresh_token _ now hrt he hlt r2
  · simp only [hrt, Option.isSome_some, true_and]
    constructor
    · intro h
      by_contra hc
      rw [authenticated_of_not_expired s r.refresh_token _ now hrt he
        (by omega) r2] at h
      simp at h
    · intro h
      simp only [authenticated, hrt, he]
      rw [if_pos h]
  · rw [authenticated_of_expired s r.refresh_token _ t1 hrt he ht1 r2 hok2]
    exact authenticated_of_not_expired _ r2.refresh_token _ t2 rfl rfl ht2 r3

/-- C1 witness: a session authenticated at time 0 with `expires_in =
3600` is left untouched by a call at time 10. -/
theorem C1_witness :
    authenticated ((Smappee.init (some "id") (some "sec")).authenticate 0
        ⟨200, "a", "r", 3600⟩).1 10 ⟨200, "x", "y", 60⟩ =
      (((Smappee.init (some "id") (some "sec")).authenticate 0
        ⟨200, "a", "r", 3600⟩).1, 0, none) :=
  (C1_guard_refresh_exactly_at_expiry (Smappee.init (some "id") (some "sec"))
    0 ⟨200, "a", "r", 3600⟩ (by decide)).2.1 10 ⟨200, "x", "y", 60⟩ (by decide)

/-- C6: a `SimpleSmappee` session (access token only, no client id or
secret, hence no refresh token) never calls the token-refresh endpoint
over any sequence of authenticated calls at any times, never acquires a
refresh token, and a call rejected by the server with a 401 surfaces
that authentication error unchanged. -/
theorem C6_simple_smappee_never_refreshes :
    ∀ (tok : String) (β : Type) (calls : List (CallEnv β)),
      (runCalls (SimpleSmappee.init tok) calls).2 = 0 ∧
      (runCalls (SimpleSmappee.init tok) calls).1.refresh_token = none ∧
      ∀ (now : Int) (r : TokenResponse) (resp : ApiResponse β),
        resp.status_code = 401 →
        apiGet (SimpleSmappee.init tok) now r resp =
          (SimpleSmappee.init tok, 0, .error (.httpError 401)) := by
  intro tok β calls
  have hrt : (SimpleSmappee.init tok).refresh_token = none := rfl
  have hrun := runCalls_of_refresh_token_none (SimpleSmappee.init tok) hrt calls
  refine ⟨by rw [hrun], by rw [hrun]; exact hrt, fun now r resp h401 => ?_⟩
  simp [apiGet, authenticated, hrt, statusOk, h401]

/-- C6 witness: a 401 on a single call with an expired external token. -/
theorem C6_witness :
    apiGet (β := Bool) (SimpleSmappee.init "ext") 999999 ⟨200, "a", "r", 60⟩
        ⟨401, true⟩ =
      (SimpleSmappee.init "ext", 0, .error (.httpError 401)) :=
  (C6_simple_smappee_never_refreshes "ext" Bool []).2.2 999999
    ⟨200, "a", "r", 60⟩ ⟨401, true⟩ rfl

/-- C8: `get_consumption_dataframe` reads the `consumptions` field when
no sensor id is given and the `records` field when one is, indexes the
rows by their `timestamp` field as UTC instants with the other fields
kept unchanged; the claim's concrete response yields one row indexed at
epoch-ms 1000 with `power = 5`, and an empty series yields an empty
table without error. -/
theorem C8_consumption_dataframe :
    (∀ (α : Type) (data : List (String × List (SeriesRow α)))
       (rows : List (SeriesRow α)),
       data.lookup "consumptions" = some rows →
       Smappee.get_consumption_dataframe none data =
         .ok (rows.map fun r => ({ epoch_ms := r.timestamp }, r.fields))) ∧
    (∀ (α : Type) (k : Int) (data : List (String × List (SeriesRow α)))
       (rows : List (SeriesRow α)),
       data.lookup "records" = some rows →
       Smappee.get_consumption_dataframe (some k) data =
         .ok (rows.map fun r => ({ epoch_ms := r.timestamp }, r.fields))) ∧
    (Smappee.get_consumption_dataframe none
       [("consumptions", [(⟨1000, [("power", (5 : Int))]⟩ : SeriesRow Int)])] =
       .ok [(⟨1000⟩, [("power", 5)])]) ∧
    (Smappee.get_consumption_dataframe none
       [("consumptions", ([] : List (SeriesRow Int)))] = .ok []) := by
  refine ⟨fun α data rows h => ?_, fun α k data rows h => ?_, rfl, rfl⟩
  · simp [Smappee.get_consumption_dataframe, h]
  · simp [Smappee.get_consumption_dataframe, h]

/-- C8 witness: the generic selection rule applied to the claim's
concrete consumption response. -/
theorem C8_witness :
    Smappee.get_consumption_dataframe none
      [("consumptions", [(⟨1000, [("power", (5 : Int))]⟩ : SeriesRow Int)])] =
      .ok [(⟨1000⟩, [("power", 5)])] :=
  C8_consumption_dataframe.1 Int
    [("consumptions", [⟨1000, [("power", 5)]⟩])] [⟨1000, [("power", 5)]⟩] rfl

/-- Leading slashes are absorbed by `dropWhile`. -/
theorem dropWhile_replicate_slash_append (k : Nat) (l : List Char) :
    (List.replicate k '/' ++ l).dropWhile (· = '/') = l.dropWhile (· = '/') := by
  induction k with
  | zero => simp
  | succ n ih => simp [List.replicate_succ, List.dropWhile_cons, ih]

/-- A list whose head is not a slash is untouched by the leading strip. -/
theorem dropWhile_slash_eq_self (l : List Char) (h : l.head? ≠ some '/') :
    l.dropWhile (· = '/') = l := by
  cases l with
  | nil => rfl
  | cons a t =>
    have ha : a ≠ '/' := by simpa using h
    simp [List.dropWhile_cons, ha]

/-- `strip(slash)` removes exactly the boundary runs of slashes: every
list is a leading slash run, its stripped core, and a trailing slash
run. -/
theorem stripSlashes_decomp (l : List Char) :
    ∃ k m : Nat,
      l = List.replicate k '/' ++ stripSlashes l ++ List.replicate m '/' := by
  have htake : ∀ x : List Char, x.takeWhile (· = '/') =
      List.replicate (x.takeWhile (· = '/')).length '/' := fun x =>
    List.eq_replicate_of_mem fun b hb => by
      simpa using List.mem_takeWhile_imp hb
  set d := l.dropWhile (· = '/') with hd
  refine ⟨(l.takeWhile (· = '/')).length,
    (d.reverse.takeWhile (· = '/')).length, ?_⟩
  have h2 : d = (d.reverse.dropWhile (· = '/')).reverse ++
      (d.reverse.takeWhile (· = '/')).reverse := by
    rw [← List.reverse_append, List.takeWhile_append_dropWhile, List.reverse_reverse]
  have h3 : (d.reverse.takeWhile (· = '/')).reverse =
      List.replicate (d.reverse.takeWhile (· = '/')).length '/' := by
    conv_lhs => rw [htake d.reverse]
    rw [List.reverse_replicate]
  calc l = l.takeWhile (· = '/') ++ d := (List.takeWhile_append_dropWhile _ l).symm
    _ = List.replicate (l.takeWhile (· = '/')).length '/' ++ d := by
        conv_lhs => rw [htake l]
    _ = List.replicate (l.takeWhile (· = '/')).length '/' ++
        (stripSlashes l ++ List.replicate (d.reverse.takeWhile (· = '/')).length '/') := by
        have hstrip : stripSlashes l = (d.reverse.dropWhile (· = '/')).reverse := rfl
        rw [hstrip, ← h3, ← h2]
    _ = _ := by rw [List.append_assoc]

/-- Boundary slash runs are invisible to `strip(slash)`. -/
theorem stripSlashes_absorb (p : List Char) (k : Nat) :
    stripSlashes (List.replicate k '/' ++ p) = stripSlashes p ∧
    stripSlashes (p ++ List.replicate k '/') = stripSlashes p := by
  constructor
  · simp [stripSlashes, dropWhile_replicate_slash_append]
  · show stripSlashes (p ++ List.replicate k '/') = stripSlashes p
    by_cases hp : (p.dropWhile (· = '/')).isEmpty
    · have hrep : (List.replicate k '/').dropWhile (· = '/') = [] := by
        simp
      have h1 : (p ++ List.replicate k '/').dropWhile (· = '/') = [] := by
        rw [List.dropWhile_append, if_pos hp, hrep]
      have h2 : p.dropWhile (· = '/') = [] := by
        simpa [List.isEmpty_iff] using hp
      simp [stripSlashes, h1, h2]
    · have h1 : (p ++ List.replicate k '/').dropWhile (· = '/') =
          p.dropWhile (· = '/') ++ List.replicate k '/' := by
        rw [List.dropWhile_append, if_neg hp]
      simp only [stripSlashes, h1, List.reverse_append, List.reverse_replicate]
      rw [dropWhile_replicate_slash_append]

/-- A part ending in a double slash ends in a slash. -/
theorem getLast_of_endsWithDoubleSlash (l : List Char)
    (h : endsWithDoubleSlash l = true) : l.getLast? = some '/' := by
  rw [← List.head?_reverse]
  unfold endsWithDoubleSlash at h
  cases hr : l.reverse with
  | nil => rw [hr] at h; cases h
  | cons a t =>
    cases t with
    | nil => rw [hr] at h; cases h
    | cons b t' =>
      rw [hr] at h
      simp only [Bool.and_eq_true, decide_eq_true_eq] at h
      simp [h.1]

/-- Restoring the slash removed from a double-slash part undoes the
removal. -/
theorem dropLast_append_slash (l : List Char)
    (h : endsWithDoubleSlash l = true) : l.dropLast ++ ['/'] = l := by
  unfold endsWithDoubleSlash at h
  cases hr : l.reverse with
  | nil => rw [hr] at h; cases h
  | cons a t =>
    cases t with
    | nil => rw [hr] at h; cases h
    | cons b t' =>
      rw [hr] at h
      simp only [Bool.and_eq_true, decide_eq_true_eq] at h
      have hl : l = (t'.reverse ++ [b]) ++ [a] := by
        have := congrArg List.reverse hr
        simpa [List.reverse_reverse] using this
      rw [hl, List.dropLast_concat, h.1]

/-- A part with no boundary slashes is a fixed point of the per-part
normalization. -/
theorem urljoinPart_eq_self (l : List Char) (h1 : l.head? ≠ some '/')
    (h2 : l.getLast? ≠ some '/') : urljoinPart l = l := by
  unfold urljoinPart
  rw [if_neg fun hc => h2 (getLast_of_endsWithDoubleSlash l hc)]
  unfold stripSlashes
  rw [dropWhile_slash_eq_self l h1,
    dropWhile_slash_eq_self l.reverse (by rwa [List.head?_reverse]),
    List.reverse_reverse]

/-- `join` on exactly two pieces. -/
theorem intercalate_pair (s x y : List Char) :
    List.intercalate s [x, y] = x ++ s ++ y := by
  simp [List.intercalate, List.intersperse]

/-- C9 counterexample: `urljoin` strips boundary slashes entirely rather
than collapsing them to one (`urljoin(slash-a-slash)` drops both, though
no duplicate separator is present), and an empty part yields a duplicate
separator that is not collapsed. -/
theorem C9_counterexample :
    urljoin ["/a/"] = "a" ∧ ("a" : String) ≠ "/a/" ∧
    urljoin ["a", "", "b"] = "a//b" ∧ ("a//b" : String) ≠ "a/b" :=
  ⟨by decide, by decide, by decide, by decide⟩

/-- C9 amended: `urljoin` normalizes each part — a part ending in a
double slash loses exactly one trailing slash (so a protocol marker like
`http://` survives the join intact), any other part is stripped of all
leading and trailing slashes with its interior left unchanged — and
joins the normalized parts with single slash separators; parts with no
boundary slashes pass through unchanged, and boundary slash runs of a
part are absorbed entirely, however long. -/
theorem C9_amended_urljoin_normalization :
    (∀ parts : List (List Char),
       (∀ p ∈ parts, p.head? ≠ some '/' ∧ p.getLast? ≠ some '/') →
       urljoinL parts = List.intercalate ['/'] parts) ∧
    (∀ p q : List Char, endsWithDoubleSlash p = true →
       urljoinL [p, q] = p ++ urljoinPart q) ∧
    (∀ p : List Char, ∃ k m : Nat,
       p = List.replicate k '/' ++ stripSlashes p ++ List.replicate m '/') ∧
    (∀ (p : List Char) (k : Nat),
       stripSlashes (List.replicate k '/' ++ p) = stripSlashes p ∧
       stripSlashes (p ++ List.replicate k '/') = stripSlashes p) := by
  refine ⟨fun parts h => ?_, fun p q hp => ?_, stripSlashes_decomp,
    stripSlashes_absorb⟩
  · unfold urljoinL
    rw [List.map_congr_left fun a ha =>
        urljoinPart_eq_self a (h a ha).1 (h a ha).2]
    rw [show (fun a : List Char => a) = id from rfl, List.map_id]
  · unfold urljoinL
    simp only [List.map]
    have hp2 : urljoinPart p = p.dropLast := by
      unfold urljoinPart; rw [if_pos hp]
    rw [intercalate_pair, hp2, dropLast_append_slash p hp]

/-- C9 amended witness: joining the protocol marker with a host keeps
the double slash. -/
theorem C9_amended_witness :
    endsWithDoubleSlash ['h', 't', 't', 'p', ':', '/', '/'] = true ∧
    urljoinL [['h', 't', 't', 'p', ':', '/', '/'], ['h', 'o', 's', 't']] =
      ['h', 't', 't', 'p', ':', '/', '/'] ++
        urljoinPart ['h', 'o', 's', 't'] :=
  ⟨by decide, C9_amended_urljoin_normalization.2.1 _ _ (by decide)⟩

/-- C4 witness: a string input evaluated concretely. -/
theorem C4_witness :
    Smappee.to_milliseconds (.other "now") =
      .error (.notImplementedError
        "Time format not supported. Use milliseconds since epoch, Datetime or Pandas Datetime") :=
  C4_unsupported_time_format.1 "now"
